import Mathlib

/-!
Verification of the mail-analysis core of this repository against its
specification.  The Python sources under `src/analyzer/` are shallowly
embedded: `CheckStatus`, `CheckResult` and `AnalysisResult.calculate_score`
come from `analysis_result.py`; `AnalysisData.is_suspicious_domain` comes
from `data_loader.py`; the per-URL / per-domain / per-anchor bodies of
`_check_urls_advanced`, `_check_suspicious_domains` and
`_check_link_spoofing` come from `email_analyzer.py`; `load_all` comes from
`AnalysisLogger` in `analysis_result.py`.  Python `float` scores are
modelled as rationals (`ℚ`); all score literals in the sources are decimal
fractions, and every operation performed on scores (addition, `abs`, `min`,
`max`, comparisons) is exact on them.  Python strings are modelled as Lean
`String`s, with the handful of needed `str` operations re-implemented by
structural recursion on the underlying character list so that concrete
instances evaluate inside the kernel.
-/

/-! ## String primitives (models of the Python `str` operations used) -/

/-- Is `needle` a contiguous infix of `hay`?  Models Python's
`needle in hay` on strings. -/
def listInfixOf (needle : List Char) : List Char → Bool
  | [] => needle.isEmpty
  | c :: rest => needle.isPrefixOf (c :: rest) || listInfixOf needle rest

/-- Python `hay.__contains__(needle)` (the `in` operator on `str`). -/
def strContains (hay needle : String) : Bool := listInfixOf needle.data hay.data

/-- Python `s.endswith(suffix)`. -/
def strEndsWith (s suffix : String) : Bool := suffix.data.isSuffixOf s.data

/-- Python `s.startswith(pre)`. -/
def strStartsWith (s pre : String) : Bool := pre.data.isPrefixOf s.data

/-- Python `str.lower` restricted to the character ranges that actually
occur in the analyzed strings: ASCII letters and the Cyrillic block
U+0410–U+042F / Ё (the sources compare Russian reason strings after
`.lower()`). -/
def pyLowerChar (c : Char) : Char :=
  if 'A' ≤ c ∧ c ≤ 'Z' then Char.ofNat (c.toNat + 32)
  else if 'А' ≤ c ∧ c ≤ 'Я' then Char.ofNat (c.toNat + 32)
  else if c = 'Ё' then 'ё'
  else c

/-- Python `s.lower()`. -/
def strLower (s : String) : String := ⟨s.data.map pyLowerChar⟩

/-- Helper for `splitOnChar`: accumulates the current fragment. -/
def splitOnCharAux (sep : Char) : List Char → List Char → List (List Char)
  | [], acc => [acc.reverse]
  | c :: rest, acc =>
    if c == sep then acc.reverse :: splitOnCharAux sep rest []
    else splitOnCharAux sep rest (c :: acc)

/-- Python `s.split(sep)` for a one-character separator. -/
def splitOnChar (sep : Char) (s : String) : List String :=
  (splitOnCharAux sep s.data []).map (fun l => ⟨l⟩)

/-- Python `s.strip()` (whitespace strip at both ends). -/
def pyStrip (s : String) : String :=
  ⟨((s.data.dropWhile Char.isWhitespace).reverse.dropWhile Char.isWhitespace).reverse⟩

/-- One non-overlapping left-to-right replacement pass, with fuel
(`fuel = hay.length` makes it total); models Python
`hay.replace(pat, "")` for a non-empty pattern. -/
def replaceDropAux (pat : List Char) : Nat → List Char → List Char
  | _, [] => []
  | 0, l => l
  | fuel + 1, c :: rest =>
    if pat.isPrefixOf (c :: rest) then
      replaceDropAux pat fuel ((c :: rest).drop pat.length)
    else
      c :: replaceDropAux pat fuel rest

/-- Python `s.replace(pat, "")` for non-empty `pat`. -/
def strReplaceEmpty (s pat : String) : String :=
  ⟨replaceDropAux pat.data s.data.length s.data⟩

/-- Python `'sep'.join(l)`. -/
def joinSep (sep : String) : List String → String
  | [] => ""
  | [s] => s
  | s :: rest => s ++ sep ++ joinSep sep rest

/-- Python `s[:n]`. -/
def strTake (n : Nat) (s : String) : String := ⟨s.data.take n⟩

/-- The part of a URL after the first `://`, or `none`; helper for
`netlocOf`. -/
def afterScheme : List Char → Option (List Char)
  | [] => none
  | ':' :: '/' :: '/' :: rest => some rest
  | _ :: rest => afterScheme rest

/-- `urlparse(url).netloc` for the `scheme://host[/path][?query][#frag]`
URLs the analyzer feeds it: everything between `://` and the next
`/`, `?` or `#` (empty when the URL has no `://`). -/
def netlocOf (url : String) : String :=
  match afterScheme url.data with
  | some rest => ⟨rest.takeWhile (fun c => !(c == '/' || c == '?' || c == '#'))⟩
  | none => ""

/-- Consume a maximal run of digits. -/
def skipDigits : List Char → List Char
  | [] => []
  | c :: rest => if c.isDigit then skipDigits rest else c :: rest

/-- Consume one-or-more digits (`\d+`), or fail. -/
def eatDigits1 : List Char → Option (List Char)
  | [] => none
  | c :: rest => if c.isDigit then some (skipDigits rest) else none

/-- Consume a literal dot. -/
def eatDot : List Char → Option (List Char)
  | '.' :: rest => some rest
  | _ => none

/-- Python `re.match(r'^\d+\.\d+\.\d+\.\d+', s)` as a Boolean (greedy
matching is exact here because `\d` and `.` are disjoint). -/
def isIpLike (s : String) : Bool :=
  (eatDigits1 s.data >>= eatDot >>= eatDigits1 >>= eatDot >>=
    eatDigits1 >>= eatDot >>= eatDigits1).isSome

/-- Hexadecimal value of a char, if any. -/
def hexVal? (c : Char) : Option Nat :=
  if '0' ≤ c ∧ c ≤ '9' then some (c.toNat - '0'.toNat)
  else if 'a' ≤ c ∧ c ≤ 'f' then some (c.toNat - 'a'.toNat + 10)
  else if 'A' ≤ c ∧ c ≤ 'F' then some (c.toNat - 'A'.toNat + 10)
  else none

/-- Python `urllib.parse.unquote` restricted to ASCII percent-escapes
(the only ones the detector's keyword search can react to). -/
def pyUnquote : List Char → List Char
  | '%' :: h1 :: h2 :: rest =>
    match hexVal? h1, hexVal? h2 with
    | some a, some b => Char.ofNat (16 * a + b) :: pyUnquote rest
    | _, _ => '%' :: pyUnquote (h1 :: h2 :: rest)
  | c :: rest => c :: pyUnquote rest
  | [] => []

/-- Python `s.encode('ascii')` succeeds iff every char is ASCII. -/
def isAsciiStr (s : String) : Bool := s.data.all (fun c => c.toNat ≤ 127)

/-! ## Data model (`src/analyzer/analysis_result.py`) -/

/-- `CheckStatus` enum. -/
inductive CheckStatus where
  | pass
  | warn
  | fail
  | info
  | error
deriving DecidableEq, Repr

/-- `CheckResult`: one detector's finding.  The `details` bag is
modelled as an association list of string-list payloads (the only
payload shapes the claims inspect); the engine never interprets it. -/
structure CheckResult where
  name : String
  status : CheckStatus
  score : ℚ := 0
  title : String := ""
  description : String := ""
  details : List (String × List String) := []
deriving DecidableEq

/-- `AnalysisResult`, restricted to the fields the verified claims
touch (identification, the check list, and the four derived verdict
fields).  Envelope copies and timestamps are omitted. -/
structure AnalysisResult where
  message_id : String := ""
  email_account : String := ""
  checks : List CheckResult := []
  total_score : ℚ := 0
  risk_level : String := "safe"
  is_spam : Bool := false
  is_phishing : Bool := false
deriving DecidableEq

/-- The `phishing_checks` name list of `calculate_score`. -/
def phishing_checks : List String :=
  ["brand_impersonation", "suspicious_links", "credential_harvesting",
   "link_spoofing", "suspicious_subject", "urls_advanced",
   "envelope_sender", "reply_to", "suspicious_domains",
   "unicode_spoofing", "official_from_free", "malicious_urls"]

/-- The `critical_checks` name list of `calculate_score`. -/
def critical_checks : List String := ["attachments", "html_content"]

/-- The `spam_checks` name list of `calculate_score`. -/
def spam_checks : List String := ["low_context", "received_chain"]

/-- The inline v2.0 critical list of `calculate_score` (line 125). -/
def critical_v2_checks : List String :=
  ["unicode_spoofing", "official_from_free", "malicious_urls"]

/-- The mutable loop state of `calculate_score`'s single pass over the
checks: the two counters, the (unused downstream) severity accumulator
and the two verdict flags being updated in place. -/
structure ScanState where
  fail_count : Nat
  warn_count : Nat
  severe_penalty : ℚ
  is_spam : Bool
  is_phishing : Bool
deriving DecidableEq

/-- Status counting (lines 110–113 of `analysis_result.py`). -/
def scanCount (s : ScanState) (check : CheckResult) : ScanState :=
  if check.status = CheckStatus.fail then { s with fail_count := s.fail_count + 1 }
  else if check.status = CheckStatus.warn then { s with warn_count := s.warn_count + 1 }
  else s

/-- Phishing rule (lines 116–122): FAIL, or (not FAIL and score ≤ −2.0),
on a phishing-grade name sets `is_phishing`. -/
def scanPhish (s : ScanState) (check : CheckResult) : ScanState :=
  if check.name ∈ phishing_checks then
    if check.status = CheckStatus.fail then
      { s with is_phishing := true, severe_penalty := s.severe_penalty + |check.score| }
    else if check.score ≤ -2 then
      { s with is_phishing := true, severe_penalty := s.severe_penalty + |check.score| }
    else s
  else s

/-- Critical v2 rule (lines 125–128): one FAIL on the three v2 names
sets both flags. -/
def scanCritV2 (s : ScanState) (check : CheckResult) : ScanState :=
  if check.name ∈ critical_v2_checks ∧ check.status = CheckStatus.fail then
    { s with is_phishing := true, is_spam := true }
  else s

/-- Critical-threat rule (lines 131–134): FAIL with score ≤ −2.0 on
`attachments`/`html_content` sets `is_spam`. -/
def scanCritical (s : ScanState) (check : CheckResult) : ScanState :=
  if check.name ∈ critical_checks ∧ check.status = CheckStatus.fail ∧ check.score ≤ -2 then
    { s with is_spam := true, severe_penalty := s.severe_penalty + |check.score| }
  else s

/-- Spam-grade rule (lines 137–138): any FAIL on `low_context` /
`received_chain` sets `is_spam`. -/
def scanSpamGrade (s : ScanState) (check : CheckResult) : ScanState :=
  if check.name ∈ spam_checks ∧ check.status = CheckStatus.fail then
    { s with is_spam := true }
  else s

/-- The body of `for check in self.checks` in `calculate_score`
(lines 108–138 of `analysis_result.py`): the five statement blocks in
source order, applied to the running state. -/
def scanCheck (s : ScanState) (check : CheckResult) : ScanState :=
  scanSpamGrade (scanCritical (scanCritV2 (scanPhish (scanCount s check) check) check) check) check

/-- `AnalysisResult.calculate_score` (lines 75–171 of
`analysis_result.py`): one pass over the checks updating the flags and
counters, the combination overrides, the linear score sum started at
10.0, the spam/phishing clamp to 1.0, the clamp to [0, 10] and the
risk-level mapping.  It mutates (returns) only the four derived
fields. -/
def calculate_score (r : AnalysisResult) : AnalysisResult :=
  let s0 : ScanState :=
    { fail_count := 0, warn_count := 0, severe_penalty := 0,
      is_spam := r.is_spam, is_phishing := r.is_phishing }
  let s := r.checks.foldl scanCheck s0
  let s :=
    if 3 ≤ s.fail_count ∨ (2 ≤ s.fail_count ∧ 3 ≤ s.warn_count) then
      { s with is_spam := true }
    else s
  let s :=
    if 5 ≤ s.warn_count ∧ s.fail_count = 0 then { s with is_spam := true } else s
  let score : ℚ := 10 + r.checks.foldl (fun a c => a + c.score) 0
  let score := if s.is_phishing = true ∨ s.is_spam = true then min score 1 else score
  let total_score := max 0 (min 10 score)
  let risk_level :=
    if s.is_phishing = true ∨ s.is_spam = true then "critical"
    else if 8 ≤ total_score then "safe"
    else if 6 ≤ total_score then "low"
    else if 4 ≤ total_score then "medium"
    else if 2 ≤ total_score then "high"
    else "critical"
  { r with total_score := total_score, risk_level := risk_level,
           is_spam := s.is_spam, is_phishing := s.is_phishing }

/-! ## Closed forms for the scan pass -/

/-- The exact condition under which one iteration of the check walk
sets `is_spam` (read off the three spam-setting branches of
`scanCheck`). -/
def spamFires (c : CheckResult) : Bool :=
  decide (c.name ∈ critical_v2_checks ∧ c.status = CheckStatus.fail) ||
  decide (c.name ∈ critical_checks ∧ c.status = CheckStatus.fail ∧ c.score ≤ -2) ||
  decide (c.name ∈ spam_checks ∧ c.status = CheckStatus.fail)

/-- The exact condition under which one iteration of the check walk
sets `is_phishing`. -/
def phishFires (c : CheckResult) : Bool :=
  decide (c.name ∈ phishing_checks ∧ (c.status = CheckStatus.fail ∨ c.score ≤ -2)) ||
  decide (c.name ∈ critical_v2_checks ∧ c.status = CheckStatus.fail)

theorem scanCount_is_spam (s : ScanState) (c : CheckResult) :
    (scanCount s c).is_spam = s.is_spam := by
  unfold scanCount; split_ifs <;> rfl

theorem scanCount_is_phishing (s : ScanState) (c : CheckResult) :
    (scanCount s c).is_phishing = s.is_phishing := by
  unfold scanCount; split_ifs <;> rfl

theorem scanCount_fail_count (s : ScanState) (c : CheckResult) :
    (scanCount s c).fail_count =
      s.fail_count + (if c.status = CheckStatus.fail then 1 else 0) := by
  unfold scanCount; split_ifs <;> simp_all

theorem scanCount_warn_count (s : ScanState) (c : CheckResult) :
    (scanCount s c).warn_count =
      s.warn_count + (if c.status = CheckStatus.warn then 1 else 0) := by
  unfold scanCount; split_ifs <;> simp_all

theorem scanPhish_is_spam (s : ScanState) (c : CheckResult) :
    (scanPhish s c).is_spam = s.is_spam := by
  unfold scanPhish; split_ifs <;> rfl

theorem scanPhish_is_phishing (s : ScanState) (c : CheckResult) :
    (scanPhish s c).is_phishing =
      (s.is_phishing ||
        decide (c.name ∈ phishing_checks ∧
          (c.status = CheckStatus.fail ∨ c.score ≤ -2))) := by
  unfold scanPhish; split_ifs <;> simp_all

theorem scanPhish_counts (s : ScanState) (c : CheckResult) :
    (scanPhish s c).fail_count = s.fail_count ∧
      (scanPhish s c).warn_count = s.warn_count := by
  unfold scanPhish; split_ifs <;> exact ⟨rfl, rfl⟩

theorem scanCritV2_is_spam (s : ScanState) (c : CheckResult) :
    (scanCritV2 s c).is_spam =
      (s.is_spam ||
        decide (c.name ∈ critical_v2_checks ∧ c.status = CheckStatus.fail)) := by
  unfold scanCritV2; split_ifs <;> simp_all

theorem scanCritV2_is_phishing (s : ScanState) (c : CheckResult) :
    (scanCritV2 s c).is_phishing =
      (s.is_phishing ||
        decide (c.name ∈ critical_v2_checks ∧ c.status = CheckStatus.fail)) := by
  unfold scanCritV2; split_ifs <;> simp_all

theorem scanCritV2_counts (s : ScanState) (c : CheckResult) :
    (scanCritV2 s c).fail_count = s.fail_count ∧
      (scanCritV2 s c).warn_count = s.warn_count := by
  unfold scanCritV2; split_ifs <;> exact ⟨rfl, rfl⟩

theorem scanCritical_is_spam (s : ScanState) (c : CheckResult) :
    (scanCritical s c).is_spam =
      (s.is_spam ||
        decide (c.name ∈ critical_checks ∧ c.status = CheckStatus.fail ∧
          c.score ≤ -2)) := by
  unfold scanCritical; split_ifs <;> simp_all

theorem scanCritical_is_phishing (s : ScanState) (c : CheckResult) :
    (scanCritical s c).is_phishing = s.is_phishing := by
  unfold scanCritical; split_ifs <;> rfl

theorem scanCritical_counts (s : ScanState) (c : CheckResult) :
    (scanCritical s c).fail_count = s.fail_count ∧
      (scanCritical s c).warn_count = s.warn_count := by
  unfold scanCritical; split_ifs <;> exact ⟨rfl, rfl⟩

theorem scanSpamGrade_is_spam (s : ScanState) (c : CheckResult) :
    (scanSpamGrade s c).is_spam =
      (s.is_spam ||
        decide (c.name ∈ spam_checks ∧ c.status = CheckStatus.fail)) := by
  unfold scanSpamGrade; split_ifs <;> simp_all

theorem scanSpamGrade_is_phishing (s : ScanState) (c : CheckResult) :
    (scanSpamGrade s c).is_phishing = s.is_phishing := by
  unfold scanSpamGrade; split_ifs <;> rfl

theorem scanSpamGrade_counts (s : ScanState) (c : CheckResult) :
    (scanSpamGrade s c).fail_count = s.fail_count ∧
      (scanSpamGrade s c).warn_count = s.warn_count := by
  unfold scanSpamGrade; split_ifs <;> exact ⟨rfl, rfl⟩

theorem scanCheck_is_spam (s : ScanState) (c : CheckResult) :
    (scanCheck s c).is_spam = (s.is_spam || spamFires c) := by
  simp only [scanCheck, scanSpamGrade_is_spam, scanCritical_is_spam,
    scanCritV2_is_spam, scanPhish_is_spam, scanCount_is_spam, spamFires,
    Bool.or_assoc]

theorem scanCheck_is_phishing (s : ScanState) (c : CheckResult) :
    (scanCheck s c).is_phishing = (s.is_phishing || phishFires c) := by
  simp only [scanCheck, scanSpamGrade_is_phishing, scanCritical_is_phishing,
    scanCritV2_is_phishing, scanPhish_is_phishing, scanCount_is_phishing,
    phishFires, Bool.or_assoc]

theorem scanCheck_fail_count (s : ScanState) (c : CheckResult) :
    (scanCheck s c).fail_count =
      s.fail_count + (if c.status = CheckStatus.fail then 1 else 0) := by
  simp only [scanCheck, (scanSpamGrade_counts _ _).1, (scanCritical_counts _ _).1,
    (scanCritV2_counts _ _).1, (scanPhish_counts _ _).1, scanCount_fail_count]

theorem scanCheck_warn_count (s : ScanState) (c : CheckResult) :
    (scanCheck s c).warn_count =
      s.warn_count + (if c.status = CheckStatus.warn then 1 else 0) := by
  simp only [scanCheck, (scanSpamGrade_counts _ _).2, (scanCritical_counts _ _).2,
    (scanCritV2_counts _ _).2, (scanPhish_counts _ _).2, scanCount_warn_count]

theorem foldl_scan_is_spam (l : List CheckResult) (s : ScanState) :
    (l.foldl scanCheck s).is_spam = (s.is_spam || l.any spamFires) := by
  induction l generalizing s with
  | nil => simp
  | cons c rest ih => simp [ih, scanCheck_is_spam, Bool.or_assoc]

theorem foldl_scan_is_phishing (l : List CheckResult) (s : ScanState) :
    (l.foldl scanCheck s).is_phishing = (s.is_phishing || l.any phishFires) := by
  induction l generalizing s with
  | nil => simp
  | cons c rest ih => simp [ih, scanCheck_is_phishing, Bool.or_assoc]

/-- `fail_count` after the walk. -/
def failCount (l : List CheckResult) : Nat :=
  l.countP (fun c => decide (c.status = CheckStatus.fail))

/-- `warn_count` after the walk. -/
def warnCount (l : List CheckResult) : Nat :=
  l.countP (fun c => decide (c.status = CheckStatus.warn))

theorem foldl_scan_fail_count (l : List CheckResult) (s : ScanState) :
    (l.foldl scanCheck s).fail_count = s.fail_count + failCount l := by
  induction l generalizing s with
  | nil => simp [failCount]
  | cons c rest ih =>
    simp only [List.foldl_cons, ih, scanCheck_fail_count, failCount,
      List.countP_cons, decide_eq_true_eq]
    split_ifs <;> omega

theorem foldl_scan_warn_count (l : List CheckResult) (s : ScanState) :
    (l.foldl scanCheck s).warn_count = s.warn_count + warnCount l := by
  induction l generalizing s with
  | nil => simp [warnCount]
  | cons c rest ih =>
    simp only [List.foldl_cons, ih, scanCheck_warn_count, warnCount,
      List.countP_cons, decide_eq_true_eq]
    split_ifs <;> omega

/-- The combination-override condition of `calculate_score`
(lines 141–146). -/
def comboSpam (l : List CheckResult) : Bool :=
  decide (3 ≤ failCount l ∨ (2 ≤ failCount l ∧ 3 ≤ warnCount l)) ||
  decide (5 ≤ warnCount l ∧ failCount l = 0)

/-- The pre-clamp linear score: 10 plus the sum of all check scores. -/
def rawScore (l : List CheckResult) : ℚ := 10 + l.foldl (fun a c => a + c.score) 0

theorem calc_is_spam (r : AnalysisResult) :
    (calculate_score r).is_spam =
      (r.is_spam || r.checks.any spamFires || comboSpam r.checks) := by
  simp only [calculate_score, comboSpam]
  simp only [apply_ite ScanState.is_spam, apply_ite ScanState.fail_count,
    apply_ite ScanState.warn_count, foldl_scan_is_spam, foldl_scan_fail_count,
    foldl_scan_warn_count, Nat.zero_add]
  by_cases h1 : 3 ≤ failCount r.checks ∨ 2 ≤ failCount r.checks ∧ 3 ≤ warnCount r.checks <;>
    by_cases h2 : 5 ≤ warnCount r.checks ∧ failCount r.checks = 0 <;>
      simp [h1, h2, Bool.or_assoc]

theorem calc_is_phishing (r : AnalysisResult) :
    (calculate_score r).is_phishing = (r.is_phishing || r.checks.any phishFires) := by
  simp only [calculate_score]
  simp only [apply_ite ScanState.is_phishing, foldl_scan_is_phishing]
  split_ifs <;> rfl

theorem calc_total_score (r : AnalysisResult) :
    (calculate_score r).total_score =
      max 0 (min 10
        (if (calculate_score r).is_phishing = true ∨ (calculate_score r).is_spam = true
         then min (rawScore r.checks) 1 else rawScore r.checks)) := by
  simp only [calculate_score, rawScore]

theorem calc_risk_level (r : AnalysisResult) :
    (calculate_score r).risk_level =
      (if (calculate_score r).is_phishing = true ∨ (calculate_score r).is_spam = true
       then "critical"
       else if 8 ≤ (calculate_score r).total_score then "safe"
       else if 6 ≤ (calculate_score r).total_score then "low"
       else if 4 ≤ (calculate_score r).total_score then "medium"
       else if 2 ≤ (calculate_score r).total_score then "high"
       else "critical") := by
  simp only [calculate_score]

theorem calc_checks (r : AnalysisResult) : (calculate_score r).checks = r.checks := rfl

/-- `AnalysisResult.from_dict` (lines 192–233 of `analysis_result.py`),
restricted to the persisted fields the model keeps: every field is
copied from the document, including the two verdict flags, with the
same defaults the Python `dict.get` calls supply.  Check entries are
taken as already parsed. -/
structure ResultDict where
  message_id : String := ""
  email_account : String := ""
  total_score : ℚ := 0
  risk_level : String := "safe"
  is_spam : Bool := false
  is_phishing : Bool := false
  checks : List CheckResult := []
deriving DecidableEq

/-- The reconstruction itself. -/
def AnalysisResult.from_dict (data : ResultDict) : AnalysisResult :=
  { message_id := data.message_id
    email_account := data.email_account
    total_score := data.total_score
    risk_level := data.risk_level
    is_spam := data.is_spam
    is_phishing := data.is_phishing
    checks := data.checks }

/-! ## C1 — unconditional veto of the three critical v2 detectors -/

/-- C1: if some check is named `unicode_spoofing`, `official_from_free`
or `malicious_urls` and has status FAIL, then after `calculate_score`
both `is_phishing` and `is_spam` are true, `total_score ≤ 1.0`, and
`risk_level = "critical"`, whatever the rest of the check list is. -/
theorem c1_critical_v2_fail_veto (r : AnalysisResult) (c : CheckResult)
    (hc : c ∈ r.checks) (hname : c.name ∈ critical_v2_checks)
    (hfail : c.status = CheckStatus.fail) :
    (calculate_score r).is_phishing = true ∧ (calculate_score r).is_spam = true ∧
      (calculate_score r).total_score ≤ 1 ∧
      (calculate_score r).risk_level = "critical" := by
  have hspamf : spamFires c = true := by simp [spamFires, hname, hfail]
  have hphishf : phishFires c = true := by simp [phishFires, hname, hfail]
  have hs : (calculate_score r).is_spam = true := by
    rw [calc_is_spam]
    simp [List.any_eq_true.mpr ⟨c, hc, hspamf⟩]
  have hp : (calculate_score r).is_phishing = true := by
    rw [calc_is_phishing]
    simp [List.any_eq_true.mpr ⟨c, hc, hphishf⟩]
  refine ⟨hp, hs, ?_, ?_⟩
  · rw [calc_total_score, if_pos (Or.inl hp)]
    exact max_le (by norm_num) (le_trans (min_le_right _ _) (min_le_right _ _))
  · rw [calc_risk_level, if_pos (Or.inl hp)]

/-- The spec's concrete monotonic-veto example: a FAILed
`unicode_spoofing` check plus two positive PASS checks. -/
def c1exCheck : CheckResult := { name := "unicode_spoofing", status := CheckStatus.fail, score := -10 }

/-- The check list of the spec's example. -/
def c1ex : AnalysisResult :=
  { checks := [c1exCheck,
               { name := "spf", status := CheckStatus.pass, score := 5 },
               { name := "dkim", status := CheckStatus.pass, score := 5 }] }

/-- Witness for C1 at the spec's concrete example. -/
theorem c1_critical_v2_fail_veto_witness :
    (calculate_score c1ex).is_phishing = true ∧ (calculate_score c1ex).is_spam = true ∧
      (calculate_score c1ex).total_score ≤ 1 ∧
      (calculate_score c1ex).risk_level = "critical" :=
  c1_critical_v2_fail_veto c1ex c1exCheck (List.mem_cons_self _ _) (by decide) rfl

/-! ## C2 — score bounds and the spam/phishing clamp -/

/-- C2: `total_score` always lands in [0, 10], and whenever the
computed `is_spam` or `is_phishing` flag is true the score is clamped
to at most 1.0. -/
theorem c2_score_bounds (r : AnalysisResult) :
    0 ≤ (calculate_score r).total_score ∧ (calculate_score r).total_score ≤ 10 ∧
      ((calculate_score r).is_spam = true ∨ (calculate_score r).is_phishing = true →
        (calculate_score r).total_score ≤ 1) := by
  refine ⟨?_, ?_, ?_⟩
  · rw [calc_total_score]; exact le_max_left _ _
  · rw [calc_total_score]; exact max_le (by norm_num) (min_le_left _ _)
  · intro h
    rw [calc_total_score, if_pos (Or.symm h)]
    exact max_le (by norm_num) (le_trans (min_le_right _ _) (min_le_right _ _))

/-- A one-check list whose FAILed `low_context` check sets `is_spam`. -/
def c2ex : AnalysisResult :=
  { checks := [{ name := "low_context", status := CheckStatus.fail, score := 0 }] }

/-- Witness for C2: at `c2ex` the clamp hypothesis holds, so all three
bounds are realized together. -/
theorem c2_score_bounds_witness :
    0 ≤ (calculate_score c2ex).total_score ∧ (calculate_score c2ex).total_score ≤ 10 ∧
      (calculate_score c2ex).total_score ≤ 1 := by
  have hs : (calculate_score c2ex).is_spam = true := by rw [calc_is_spam]; decide
  exact ⟨(c2_score_bounds c2ex).1, (c2_score_bounds c2ex).2.1,
    (c2_score_bounds c2ex).2.2 (Or.inl hs)⟩

/-! ## C3 — idempotence of `calculate_score` -/

theorem bool_or3_absorb (a x y : Bool) : ((a || x || y) || x || y) = (a || x || y) := by
  cases a <;> cases x <;> cases y <;> rfl

theorem bool_or2_absorb (a x : Bool) : ((a || x) || x) = (a || x) := by
  cases a <;> cases x <;> rfl

/-- C3: running `calculate_score` twice in a row on the same check
list yields the same four derived fields as running it once. -/
theorem c3_idempotent (r : AnalysisResult) :
    (calculate_score (calculate_score r)).total_score = (calculate_score r).total_score ∧
    (calculate_score (calculate_score r)).risk_level = (calculate_score r).risk_level ∧
    (calculate_score (calculate_score r)).is_spam = (calculate_score r).is_spam ∧
    (calculate_score (calculate_score r)).is_phishing = (calculate_score r).is_phishing := by
  have hs : (calculate_score (calculate_score r)).is_spam = (calculate_score r).is_spam := by
    rw [calc_is_spam (calculate_score r), calc_checks, calc_is_spam r, bool_or3_absorb]
  have hp : (calculate_score (calculate_score r)).is_phishing =
      (calculate_score r).is_phishing := by
    rw [calc_is_phishing (calculate_score r), calc_checks, calc_is_phishing r,
      bool_or2_absorb]
  have ht : (calculate_score (calculate_score r)).total_score =
      (calculate_score r).total_score := by
    rw [calc_total_score (calculate_score r), calc_checks, hs, hp,
      calc_total_score r]
  refine ⟨ht, ?_, hs, hp⟩
  rw [calc_risk_level (calculate_score r), hs, hp, ht, calc_risk_level r]

/-! ## C4 — combination overrides on FAIL/WARN counts -/

/-- C4: `is_spam` is set whenever the FAIL count is ≥ 3, or ≥ 2 with
≥ 3 WARNs, or there are ≥ 5 WARNs and no FAILs at all. -/
theorem c4_combination_spam (r : AnalysisResult)
    (h : 3 ≤ failCount r.checks ∨ (2 ≤ failCount r.checks ∧ 3 ≤ warnCount r.checks) ∨
         (5 ≤ warnCount r.checks ∧ failCount r.checks = 0)) :
    (calculate_score r).is_spam = true := by
  rw [calc_is_spam]
  have hc : comboSpam r.checks = true := by
    unfold comboSpam
    rcases h with h | h | h
    · simp [h]
    · simp [h.1, h.2]
    · simp [h.1, h.2]
  simp [hc]

/-- Exactly three FAILed non-critical checks and nothing else (the
spec's combination-rule example). -/
def c4ex : AnalysisResult :=
  { checks := [{ name := "trigger_words", status := CheckStatus.fail, score := 0 },
               { name := "links", status := CheckStatus.fail, score := 0 },
               { name := "headers", status := CheckStatus.fail, score := 0 }] }

/-- Witness for C4 at the three-FAIL example. -/
theorem c4_combination_spam_witness : (calculate_score c4ex).is_spam = true :=
  c4_combination_spam c4ex (Or.inl (by decide))

/-! ## C5 — ERROR checks and the veto rules -/

/-- C5 counterexample: the claim says an ERROR check never causes
`is_phishing`, whatever its name and score — but the score-based
phishing branch (`elif check.score <= -2.0`, line 120) fires for any
non-FAIL status, ERROR included: a single ERROR `link_spoofing` check
with score −2 flips `is_phishing`. -/
def c5cexCheck : CheckResult :=
  { name := "link_spoofing", status := CheckStatus.error, score := -2 }

/-- The one-ERROR-check list of the counterexample. -/
def c5cex : AnalysisResult := { checks := [c5cexCheck] }

theorem c5_error_counterexample : (calculate_score c5cex).is_phishing = true := by
  rw [calc_is_phishing]
  have hf : phishFires c5cexCheck = true := by
    have h1 : c5cexCheck.name ∈ phishing_checks := by decide
    have h2 : c5cexCheck.score ≤ -2 := le_refl _
    simp [phishFires, h1, h2]
  simp [c5cex, hf]

/-- C5 (amended): an ERROR-status check is counted in neither
`fail_count` nor `warn_count` and never causes `is_spam`; it also never
causes `is_phishing` provided its score is > −2.0 or its name is not
phishing-grade (the score-based phishing branch ignores status, so an
ERROR check with a phishing-grade name and score ≤ −2.0 does set
`is_phishing`). -/
theorem c5_error_no_veto (r r' : AnalysisResult) (l₁ l₂ : List CheckResult)
    (c : CheckResult) (herr : c.status = CheckStatus.error)
    (hr : r.checks = l₁ ++ c :: l₂) (hr' : r' = { r with checks := l₁ ++ l₂ }) :
    failCount r.checks = failCount r'.checks ∧
    warnCount r.checks = warnCount r'.checks ∧
    (calculate_score r).is_spam = (calculate_score r').is_spam ∧
    (¬ c.score ≤ -2 ∨ c.name ∉ phishing_checks →
      (calculate_score r).is_phishing = (calculate_score r').is_phishing) := by
  have hck' : r'.checks = l₁ ++ l₂ := by rw [hr']
  have hfc : failCount r.checks = failCount r'.checks := by
    rw [hr, hck']
    simp [failCount, List.countP_append, List.countP_cons, herr]
  have hwc : warnCount r.checks = warnCount r'.checks := by
    rw [hr, hck']
    simp [warnCount, List.countP_append, List.countP_cons, herr]
  have hsf : spamFires c = false := by
    simp [spamFires, herr]
  refine ⟨hfc, hwc, ?_, ?_⟩
  · rw [calc_is_spam, calc_is_spam, hr', hr]
    simp only [List.any_append, List.any_cons, hsf, Bool.false_or]
    have : comboSpam (l₁ ++ c :: l₂) = comboSpam (l₁ ++ l₂) := by
      unfold comboSpam
      rw [show failCount (l₁ ++ c :: l₂) = failCount (l₁ ++ l₂) by
            simpa [hr, hck'] using hfc,
          show warnCount (l₁ ++ c :: l₂) = warnCount (l₁ ++ l₂) by
            simpa [hr, hck'] using hwc]
    rw [this]
  · intro hside
    have hpf : phishFires c = false := by
      rcases hside with hsc | hnm
      · simp [phishFires, herr, hsc]
      · simp [phishFires, herr, hnm]
    rw [calc_is_phishing, calc_is_phishing, hr', hr]
    simp only [List.any_append, List.any_cons, hpf, Bool.false_or]

/-- The list with the ERROR check inserted, for the C5 witness. -/
def c5exA : AnalysisResult :=
  { checks := [{ name := "links", status := CheckStatus.fail, score := 0 },
               { name := "spf", status := CheckStatus.error, score := 0 }] }

/-- The same list without the ERROR check. -/
def c5exB : AnalysisResult :=
  { checks := [{ name := "links", status := CheckStatus.fail, score := 0 }] }

/-- Witness for the amended C5 at a concrete ERROR `spf` check with
score 0. -/
theorem c5_error_no_veto_witness :
    failCount c5exA.checks = failCount c5exB.checks ∧
    warnCount c5exA.checks = warnCount c5exB.checks ∧
    (calculate_score c5exA).is_spam = (calculate_score c5exB).is_spam ∧
    (calculate_score c5exA).is_phishing = (calculate_score c5exB).is_phishing := by
  have h := c5_error_no_veto c5exA c5exB
    [{ name := "links", status := CheckStatus.fail, score := 0 }] []
    { name := "spf", status := CheckStatus.error, score := 0 } rfl rfl rfl
  exact ⟨h.1, h.2.1, h.2.2.1, h.2.2.2 (Or.inl (by norm_num))⟩

/-! ## C10 — `calculate_score` never lowers the flags -/

/-- C10: `calculate_score` only ever assigns `true` to `is_spam` and
`is_phishing`; a flag already true before the call (e.g. on a result
reconstructed by `from_dict`) stays true even when the check list
triggers nothing, so the derived verdict is not a pure function of the
checks alone. -/
theorem c10_flags_monotone (r : AnalysisResult) :
    (r.is_spam = true → (calculate_score r).is_spam = true) ∧
    (r.is_phishing = true → (calculate_score r).is_phishing = true) ∧
    (calculate_score (AnalysisResult.from_dict { is_spam := true })).is_spam = true ∧
    (calculate_score (AnalysisResult.from_dict { is_spam := false })).is_spam = false ∧
    (AnalysisResult.from_dict { is_spam := true }).checks =
      (AnalysisResult.from_dict { is_spam := false }).checks := by
  refine ⟨?_, ?_, ?_, ?_, rfl⟩
  · intro h; rw [calc_is_spam, h]; rfl
  · intro h; rw [calc_is_phishing, h]; rfl
  · rw [calc_is_spam]; decide
  · rw [calc_is_spam]; decide

/-- Witness for C10 at a result whose flags were both preloaded. -/
theorem c10_flags_monotone_witness :
    (calculate_score (AnalysisResult.from_dict
      { is_spam := true, is_phishing := true })).is_spam = true ∧
    (calculate_score (AnalysisResult.from_dict
      { is_spam := true, is_phishing := true })).is_phishing = true :=
  ⟨(c10_flags_monotone _).1 rfl, (c10_flags_monotone _).2.1 rfl⟩

/-! ## C6 — orchestrator boundary (`EmailAnalyzer.analyze`) -/

/-- The extractor sequencing of `EmailAnalyzer.analyze`
(`email_analyzer.py` lines 122–217): every extractor result is appended
with `result.add_check(...)` with NO try/except anywhere in `analyze`,
so an extractor that raises is modelled as `.error msg` and the
exception propagates — the run aborts at the first raising extractor
and no check list (hence no `AnalysisResult`) is produced. -/
def runExtractors : List (Except String CheckResult) → Except String (List CheckResult)
  | [] => Except.ok []
  | e :: rest =>
    match e with
    | Except.error msg => Except.error msg
    | Except.ok c =>
      match runExtractors rest with
      | Except.error msg => Except.error msg
      | Except.ok cs => Except.ok (c :: cs)

/-- A successfully produced check, for the C6 run. -/
def c6okCheck : CheckResult :=
  { name := "received_chain", status := CheckStatus.pass, score := 1/5 }

/-- A check an extractor would have produced had it not raised. -/
def c6laterCheck : CheckResult :=
  { name := "reply_to", status := CheckStatus.pass, score := 1/10 }

/-- C6: at a message whose `Return-Path` header value is not a plain
string, `_check_envelope_sender` raises `AttributeError` inside the
extractor; `analyze` has no handler, so the whole analysis aborts with
the exception instead of substituting an ERROR-status CheckResult and
running the remaining extractors (what the claim requires). -/
theorem c6_extractor_exception_aborts :
    runExtractors [Except.ok c6okCheck,
      Except.error "AttributeError in _check_envelope_sender",
      Except.ok c6laterCheck] =
      Except.error "AttributeError in _check_envelope_sender" := rfl

/-! ## Reference data (`src/analyzer/data_loader.py`) -/

/-- One entry of the brand registry: its display name, owned domains
and keywords (`known_brands.json`). -/
structure Brand where
  name : String
  domains : List String
  keywords : List String
deriving DecidableEq

/-- `AnalysisData`, restricted to the tables the verified detectors
read.  The Python sets are modelled as lists (set iteration order only
ever picks which of several reasons is reported first). -/
structure AnalysisData where
  high_risk_tlds : List String := []
  suspicious_substrings : List String := []
  free_email_domains : List String := []
  brands : List Brand := []
deriving DecidableEq

/-- `AnalysisData.get_brand_domains` (the key set of the returned
dict): every brand domain, lowercased. -/
def get_brand_domains (d : AnalysisData) : List String :=
  (d.brands.map (fun b => b.domains.map strLower)).flatten

/-- `AnalysisData.is_suspicious_domain` (lines 131–161 of
`data_loader.py`): brand domains (exact or subdomain) short-circuit to
not-suspicious; otherwise the first matching high-risk TLD and the
first matching suspicious substring each contribute one reason. -/
def is_suspicious_domain (d : AnalysisData) (domain : String) : Bool × List String :=
  let dl := strLower domain
  if d.brands.any (fun b => b.domains.any (fun od =>
      let ol := strLower od
      dl == ol || strEndsWith dl ("." ++ ol))) then
    (false, [])
  else
    let tldReasons :=
      match d.high_risk_tlds.find? (fun tld => strEndsWith dl tld) with
      | some tld => ["Подозрительный TLD: " ++ tld]
      | none => []
    let subReasons :=
      match d.suspicious_substrings.find? (fun sub => strContains dl sub) with
      | some sub => ["Подозрительная подстрока в домене: " ++ sub]
      | none => []
    let reasons := tldReasons ++ subReasons
    (!reasons.isEmpty, reasons)

/-! ## C7 — `_check_urls_advanced` / `_check_suspicious_domains` -/

/-- The URL-shortener set of `_check_urls_advanced` (lines 485–489). -/
def shorteners : List String :=
  ["bit.ly", "tinyurl.com", "goo.gl", "t.co", "ow.ly", "is.gd",
   "buff.ly", "j.mp", "cutt.ly", "rb.gy", "shorturl.at", "tiny.cc",
   "tinyurl.ru", "clck.ru", "qps.ru"]

/-- The local `is_brand_domain` helper of `_check_urls_advanced`
(lines 494–504) — identical to `is_official_brand_domain` in
`_check_suspicious_domains` (lines 605–615): exact match against a
registered brand domain, or subdomain of one. -/
def is_brand_domain (brand_domains : List String) (domain : String) : Bool :=
  let dl := strLower domain
  brand_domains.contains dl ||
    brand_domains.any (fun bd => strEndsWith dl ("." ++ bd))

/-- `'.'.join(domain.split('.')[-2:]) if domain.count('.') >= 1 else domain`
(line 516). -/
def baseDomainOf (domain : String) : String :=
  let parts := splitOnChar '.' domain
  if 2 ≤ parts.length then joinSep "." (parts.drop (parts.length - 2)) else domain

/-- The accumulating loop state of `_check_urls_advanced` and
`_check_link_spoofing`: the warning issues, the critical issues and
the running score delta. -/
structure UrlScan where
  issues : List String := []
  critical : List String := []
  score : ℚ := 0
deriving DecidableEq

/-- The body of `for url in urls` in `_check_urls_advanced`
(lines 506–554): brand domains are skipped outright; then shorteners,
IP-literal domains, suspicious TLD/substring, `data:` URIs,
percent-encoded script payloads and non-ASCII (homograph) domains each
add issues and penalties, in source order with the source's
`continue`s. -/
def processUrl (d : AnalysisData) (acc : UrlScan) (url : String) : UrlScan :=
  let domain := strLower (netlocOf url)
  if is_brand_domain (get_brand_domains d) domain then acc
  else
    let base_domain := baseDomainOf domain
    if shorteners.contains base_domain || shorteners.contains domain then
      let is1 := acc.issues ++ ["Сокращённая ссылка: " ++ domain]
      { acc with issues := is1, score := acc.score - 8/10 }
    else if isIpLike domain then
      let cr1 := acc.critical ++ ["IP вместо домена: " ++ domain]
      { acc with critical := cr1, score := acc.score - 2 }
    else
      let acc :=
        match is_suspicious_domain d domain with
        | (true, reasons) =>
          { acc with issues := acc.issues ++ reasons, score := acc.score - 7/10 }
        | (false, _) => acc
      let acc :=
        if strStartsWith url "data:" then
          let cr2 := acc.critical ++ ["Data URI схема (опасно!)"]
          { acc with critical := cr2, score := acc.score - 3 }
        else acc
      let acc :=
        if strContains url "%" then
          let decoded : String := ⟨pyUnquote url.data⟩
          if decoded ≠ url ∧ (["script", "javascript", "eval"].any
              (fun p => strContains (strLower decoded) p)) then
            let cr3 := acc.critical ++ ["Закодированный вредоносный код в URL"]
            { acc with critical := cr3, score := acc.score - 5/2 }
          else acc
        else acc
      if !isAsciiStr domain then
        let cr4 := acc.critical ++ ["Unicode в домене (homograph attack): " ++ domain]
        { acc with critical := cr4, score := acc.score - 2 }
      else acc

/-- `_check_urls_advanced` (lines 469–586): empty URL set is INFO; any
critical issue is FAIL (score floored at −5); plain issues are WARN;
otherwise PASS. -/
def check_urls_advanced (d : AnalysisData) (urls : List String) : CheckResult :=
  if urls.isEmpty then
    { name := "urls_advanced", status := CheckStatus.info, score := 0,
      title := "URL отсутствуют", description := "В письме нет ссылок" }
  else
    let r := urls.foldl (processUrl d) {}
    if !r.critical.isEmpty then
      { name := "urls_advanced", status := CheckStatus.fail, score := max r.score (-5),
        title := "ОПАСНЫЕ ССЫЛКИ!",
        description := joinSep "; " (r.critical.take 2),
        details := [("critical", r.critical), ("warnings", r.issues)] }
    else if !r.issues.isEmpty then
      { name := "urls_advanced", status := CheckStatus.warn, score := r.score,
        title := "Подозрительные ссылки",
        description := "Найдено " ++ toString r.issues.length ++ " проблем",
        details := [("issues", r.issues.take 5)] }
    else
      { name := "urls_advanced", status := CheckStatus.pass, score := 2/10,
        title := "Ссылки проверены",
        description := "Проверено " ++ toString urls.length ++ " ссылок" }

/-- The body of `for domain in domains` in `_check_suspicious_domains`
(lines 617–632): the sender's own domain and official brand domains
are skipped; remaining suspicious domains add prefixed reasons and a
−0.5 penalty each. -/
def processDomain (d : AnalysisData) (sender_domain : String)
    (acc : List String × ℚ) (domain : String) : List String × ℚ :=
  let dl := strLower domain
  if dl == sender_domain then acc
  else if is_brand_domain (get_brand_domains d) dl then acc
  else
    match is_suspicious_domain d dl with
    | (true, reasons) =>
      (acc.1 ++ reasons.map (fun r => domain ++ ": " ++ r), acc.2 - 1/2)
    | (false, _) => acc

/-- `_check_suspicious_domains` (lines 588–650): empty domain set is
INFO, no issues is PASS, any issue is WARN (never FAIL). -/
def check_suspicious_domains (d : AnalysisData) (domains : List String)
    (sender_domain : String) : CheckResult :=
  if domains.isEmpty then
    { name := "suspicious_domains", status := CheckStatus.info, score := 0,
      title := "Домены не найдены", description := "В теле письма нет доменов" }
  else
    let r := domains.foldl (processDomain d sender_domain) ([], 0)
    if r.1.isEmpty then
      { name := "suspicious_domains", status := CheckStatus.pass, score := 1/10,
        title := "Домены безопасны",
        description := "Проверено " ++ toString domains.length ++ " доменов" }
    else
      { name := "suspicious_domains", status := CheckStatus.warn, score := r.2,
        title := "Подозрительные домены",
        description := r.1.headD "",
        details := [("issues", r.1.take 5), ("domains", domains.take 10)] }

/-- C7: when `google.com` is a registered brand domain,
`accounts.google.com` is never reported: `is_suspicious_domain`
short-circuits to not-suspicious, the per-URL step of
`_check_urls_advanced` and the per-domain step of
`_check_suspicious_domains` leave their accumulators untouched, and a
URL with that netloc can be deleted from the URL/domain lists without
changing either check's accumulated findings — even if `google` is
also listed as a suspicious substring. -/
theorem c7_brand_allowlist_precedence (d : AnalysisData)
    (hg : "google.com" ∈ get_brand_domains d) :
    is_suspicious_domain d "accounts.google.com" = (false, []) ∧
    (∀ (acc : UrlScan) (url : String), netlocOf url = "accounts.google.com" →
      processUrl d acc url = acc) ∧
    (∀ (acc : List String × ℚ) (sender : String),
      processDomain d sender acc "accounts.google.com" = acc) ∧
    (∀ (l₁ l₂ : List String) (url : String), netlocOf url = "accounts.google.com" →
      (l₁ ++ url :: l₂).foldl (processUrl d) {} = (l₁ ++ l₂).foldl (processUrl d) {}) ∧
    (∀ (l₁ l₂ : List String) (sender : String),
      (l₁ ++ "accounts.google.com" :: l₂).foldl (processDomain d sender) ([], 0) =
        (l₁ ++ l₂).foldl (processDomain d sender) ([], 0)) := by
  have hg' := hg
  unfold get_brand_domains at hg'
  obtain ⟨ld, hld, hmemld⟩ := List.mem_flatten.mp hg'
  obtain ⟨b, hbmem, rfl⟩ := List.mem_map.mp hld
  obtain ⟨od, hodmem, hol⟩ := List.mem_map.mp hmemld
  have hAny : ∀ s : String, strLower s = "accounts.google.com" →
      d.brands.any (fun b' => b'.domains.any (fun od' =>
        strLower s == strLower od' ||
          strEndsWith (strLower s) ("." ++ strLower od'))) = true := by
    intro s hs
    refine List.any_eq_true.mpr ⟨b, hbmem, List.any_eq_true.mpr ⟨od, hodmem, ?_⟩⟩
    rw [hs, hol]
    decide
  have h1 : is_suspicious_domain d "accounts.google.com" = (false, []) := by
    simp only [is_suspicious_domain]
    rw [hAny "accounts.google.com" (by decide)]
    simp
  have hbd : is_brand_domain (get_brand_domains d) "accounts.google.com" = true := by
    unfold is_brand_domain
    simp only [Bool.or_eq_true]
    exact Or.inr (List.any_eq_true.mpr ⟨"google.com", hg, by decide⟩)
  have h2 : ∀ (acc : UrlScan) (url : String), netlocOf url = "accounts.google.com" →
      processUrl d acc url = acc := by
    intro acc url hu
    have hlow : strLower (netlocOf url) = "accounts.google.com" := by rw [hu]; decide
    simp only [processUrl, hlow, hbd, if_true]
  have h3 : ∀ (acc : List String × ℚ) (sender : String),
      processDomain d sender acc "accounts.google.com" = acc := by
    intro acc sender
    have hlow : strLower "accounts.google.com" = "accounts.google.com" := by decide
    by_cases hs : ("accounts.google.com" == sender) = true
    · simp only [processDomain, hlow, hs, if_true]
    · simp only [processDomain, hlow, hbd, if_true]
      simp [hs]
  refine ⟨h1, h2, h3, ?_, ?_⟩
  · intro l₁ l₂ url hu
    rw [List.foldl_append, List.foldl_append, List.foldl_cons, h2 _ url hu]
  · intro l₁ l₂ sender
    rw [List.foldl_append, List.foldl_append, List.foldl_cons, h3 _ sender]

/-- A concrete reference-data table owning `google.com` as a brand
domain while also listing `google` as a suspicious substring. -/
def c7data : AnalysisData :=
  { high_risk_tlds := [".xyz"],
    suspicious_substrings := ["google"],
    free_email_domains := ["gmail.com"],
    brands := [{ name := "Google", domains := ["google.com"], keywords := ["google"] }] }

/-- Witness for C7 at `c7data` and a concrete `accounts.google.com`
URL. -/
theorem c7_brand_allowlist_precedence_witness :
    is_suspicious_domain c7data "accounts.google.com" = (false, []) ∧
    processUrl c7data {} "https://accounts.google.com/signin" = {} ∧
    processDomain c7data "scam.ru" ([], 0) "accounts.google.com" = ([], 0) := by
  have h := c7_brand_allowlist_precedence c7data (by decide)
  exact ⟨h.1, h.2.1 {} _ (by decide), h.2.2.1 ([], 0) "scam.ru"⟩

/-! ## C8 — `_check_link_spoofing` -/

/-- The regex-extraction output of `_check_link_spoofing` over the
message HTML (the function's only reads of it): `anchors` are the
`(href, text)` pairs matched by the anchor pattern (line 1052),
`hrefs` the values matched by `href=["']...["']` (line 1090), and
`hrefDomains` the domains matched by `href=["']https?://([^/"']+)`
(line 1103); `isEmpty` is Python falsiness of the html string. -/
structure HtmlLinks where
  isEmpty : Bool := false
  anchors : List (String × String) := []
  hrefs : List String := []
  hrefDomains : List String := []
deriving DecidableEq

/-- The href-side domain of an anchor (lines 1065–1072): parse (with
`http://` prefixed when the href does not start with `http`), take the
lowercased netloc, drop `www.`. -/
def anchorHrefDomain (href : String) : String :=
  strReplaceEmpty
    (strLower (netlocOf (if strStartsWith href "http" then href else "http://" ++ href)))
    "www."

/-- The displayed-text domain of an anchor (lines 1066–1073). -/
def anchorTextDomain (text : String) : String :=
  strReplaceEmpty (strLower (netlocOf text)) "www."

/-- The body of `for href, text in matches` (lines 1055–1086): only
anchors whose display text is itself a URL are inspected; a non-empty
domain mismatch is a critical issue (−5), doubled when the displayed
domain is a registered brand domain. -/
def anchorScan (d : AnalysisData) (acc : UrlScan) (m : String × String) : UrlScan :=
  let href := pyStrip m.1
  let text := pyStrip m.2
  if !(strStartsWith text "http://" || strStartsWith text "https://") then acc
  else
    let href_domain := anchorHrefDomain href
    let text_domain := anchorTextDomain text
    if href_domain ≠ "" ∧ text_domain ≠ "" ∧ href_domain ≠ text_domain then
      let cr := acc.critical ++
        ["ПОДМЕНА: показано \x27" ++ text_domain ++ "\x27, ведёт на \x27" ++ href_domain ++ "\x27"]
      let acc := { acc with critical := cr, score := acc.score - 5 }
      let bd := get_brand_domains d
      if bd.contains text_domain || bd.any (fun b => strEndsWith text_domain ("." ++ b)) then
        let cr2 := acc.critical ++ ["Имитация бренда в ссылке: " ++ text_domain]
        { acc with critical := cr2, score := acc.score - 5 }
      else acc
    else acc

/-- The protocol-less-href loop (lines 1093–1100): an href that starts
with none of `http`, `mailto:`, `#`, `/`, `tel:` but contains a dot
and is not `javascript` is a (non-critical) issue worth −2. -/
def hrefScan (acc : UrlScan) (href0 : String) : UrlScan :=
  let href := pyStrip href0
  if href ≠ "" ∧
      !(strStartsWith href "http" || strStartsWith href "mailto:" ||
        strStartsWith href "#" || strStartsWith href "/" ||
        strStartsWith href "tel:") then
    if strContains href "." ∧ !strStartsWith href "javascript" then
      let is1 := acc.issues ++ ["Подозрительная ссылка без протокола: " ++ strTake 50 href]
      { acc with issues := is1, score := acc.score - 2 }
    else acc
  else acc

/-- The suspicious-TLD href loop (lines 1106–1114): a link domain
flagged by `is_suspicious_domain` for its TLD is a (non-critical)
issue worth −1.5. -/
def hrefDomainScan (d : AnalysisData) (acc : UrlScan) (domain0 : String) : UrlScan :=
  let domain := strLower domain0
  match is_suspicious_domain d domain with
  | (true, reasons) =>
    if reasons.any (fun r => strContains (strLower r) "подозрительный tld") then
      let is1 := acc.issues ++ ["Ссылка на подозрительный домен: " ++ domain]
      { acc with issues := is1, score := acc.score - 3/2 }
    else acc
  | (false, _) => acc

/-- `_check_link_spoofing` (lines 1036–1142): INFO on empty html; FAIL
(score floored at −15) when any critical issue was found; PASS with no
issues at all; and FAIL as well when only non-critical issues were
found (the final `return` at lines 1135–1142 also carries status
FAIL). -/
def check_link_spoofing (d : AnalysisData) (h : HtmlLinks) : CheckResult :=
  if h.isEmpty then
    { name := "link_spoofing", status := CheckStatus.info, score := 0,
      title := "Нет HTML контента", description := "Нет HTML для анализа" }
  else
    let acc := h.anchors.foldl (anchorScan d) {}
    let acc := h.hrefs.foldl hrefScan acc
    let acc := h.hrefDomains.foldl (hrefDomainScan d) acc
    if !acc.critical.isEmpty then
      { name := "link_spoofing", status := CheckStatus.fail, score := max acc.score (-15),
        title := "КРИТИЧЕСКАЯ ПОДМЕНА ССЫЛОК!", description := acc.critical.headD "",
        details := [("critical", acc.critical), ("warnings", acc.issues)] }
    else if acc.issues.isEmpty then
      { name := "link_spoofing", status := CheckStatus.pass, score := 1/10,
        title := "Ссылки не подменены",
        description := "Отображаемые ссылки соответствуют реальным" }
    else
      { name := "link_spoofing", status := CheckStatus.fail, score := acc.score,
        title := "Обнаружена подмена ссылок!",
        description := joinSep "; " (acc.issues.take 2),
        details := [("issues", acc.issues)] }

/-- The claim's trigger condition on one anchor: the displayed text is
itself a URL and its domain differs from the href target's domain
(both non-empty), in exactly the terms the source compares them. -/
def anchorSpoofed (m : String × String) : Bool :=
  let href := pyStrip m.1
  let text := pyStrip m.2
  (strStartsWith text "http://" || strStartsWith text "https://") &&
    decide (anchorHrefDomain href ≠ "" ∧ anchorTextDomain text ≠ "" ∧
      anchorHrefDomain href ≠ anchorTextDomain text)

theorem anchorScan_critical_ne_nil (d : AnalysisData) (acc : UrlScan)
    (m : String × String) (hne : acc.critical ≠ []) :
    (anchorScan d acc m).critical ≠ [] := by
  simp only [anchorScan]
  split_ifs <;> simp_all

theorem anchorScan_spoofed_critical_ne_nil (d : AnalysisData) (acc : UrlScan)
    (m : String × String) (hsp : anchorSpoofed m = true) :
    (anchorScan d acc m).critical ≠ [] := by
  simp only [anchorSpoofed, Bool.and_eq_true, decide_eq_true_eq] at hsp
  simp only [anchorScan, hsp.1, Bool.not_true, if_pos hsp.2]
  split_ifs <;> simp_all

theorem foldl_anchorScan_critical_ne_nil (d : AnalysisData)
    (l : List (String × String)) (acc : UrlScan) (h : acc.critical ≠ []) :
    (l.foldl (anchorScan d) acc).critical ≠ [] := by
  induction l generalizing acc with
  | nil => exact h
  | cons x rest ih => exact ih _ (anchorScan_critical_ne_nil d acc x h)

theorem hrefScan_critical (acc : UrlScan) (x : String) :
    (hrefScan acc x).critical = acc.critical := by
  simp only [hrefScan]
  split_ifs <;> rfl

theorem hrefDomainScan_critical (d : AnalysisData) (acc : UrlScan) (x : String) :
    (hrefDomainScan d acc x).critical = acc.critical := by
  simp only [hrefDomainScan]
  split
  · split_ifs <;> rfl
  · rfl

theorem foldl_hrefScan_critical (l : List String) (acc : UrlScan) :
    (l.foldl hrefScan acc).critical = acc.critical := by
  induction l generalizing acc with
  | nil => rfl
  | cons x rest ih => rw [List.foldl_cons, ih, hrefScan_critical]

theorem foldl_hrefDomainScan_critical (d : AnalysisData) (l : List String)
    (acc : UrlScan) : (l.foldl (hrefDomainScan d) acc).critical = acc.critical := by
  induction l generalizing acc with
  | nil => rfl
  | cons x rest ih => rw [List.foldl_cons, ih, hrefDomainScan_critical]

/-- An empty reference-data table (no brands, no TLD/substring data),
as used by the concrete C8 runs. -/
def noRefData : AnalysisData := {}

/-- The extraction of the spec's round-trip example: displayed text
`https://paypal.com/login`, actual href `https://paypal-secure.ru/login`. -/
def c8ppLinks : HtmlLinks :=
  { anchors := [("https://paypal-secure.ru/login", "https://paypal.com/login")],
    hrefs := ["https://paypal-secure.ru/login"],
    hrefDomains := ["paypal-secure.ru"] }

/-- C8 (amended): `link_spoofing` returns FAIL whenever some anchor's
displayed text is a URL whose (www-stripped, non-empty) domain differs
from the href target's, and in particular the paypal round-trip
example yields FAIL with a `critical` detail naming both domains; but
mismatched display-URL anchors are not the only FAIL path (see the
counterexample: protocol-less hrefs alone also FAIL). -/
theorem c8_link_spoofing_fail :
    (∀ (d : AnalysisData) (h : HtmlLinks) (m : String × String),
      m ∈ h.anchors → anchorSpoofed m = true → h.isEmpty = false →
      (check_link_spoofing d h).status = CheckStatus.fail) ∧
    ((check_link_spoofing noRefData c8ppLinks).status = CheckStatus.fail ∧
      ∃ ds, ("critical", ds) ∈ (check_link_spoofing noRefData c8ppLinks).details ∧
        ∃ s ∈ ds, strContains s "paypal.com" = true ∧
          strContains s "paypal-secure.ru" = true) := by
  constructor
  · intro d h m hm hsp hne
    obtain ⟨s, t, hst⟩ := List.append_of_mem hm
    have hcrit : ((h.anchors.foldl (anchorScan d) {}).critical : List String) ≠ [] := by
      rw [hst, List.foldl_append, List.foldl_cons]
      exact foldl_anchorScan_critical_ne_nil d t _
        (anchorScan_spoofed_critical_ne_nil d _ m hsp)
    have hbool : ((h.anchors.foldl (anchorScan d) {}).critical).isEmpty = false := by
      cases hl : (h.anchors.foldl (anchorScan d) {}).critical with
      | nil => exact absurd hl hcrit
      | cons a as => rfl
    simp [check_link_spoofing, hne, foldl_hrefDomainScan_critical,
      foldl_hrefScan_critical, hbool]
  · refine ⟨by decide, ?_⟩
    have hd : (check_link_spoofing noRefData c8ppLinks).details =
        [("critical",
          ["ПОДМЕНА: показано \x27paypal.com\x27, ведёт на \x27paypal-secure.ru\x27"]),
         ("warnings", [])] := by decide
    refine ⟨["ПОДМЕНА: показано \x27paypal.com\x27, ведёт на \x27paypal-secure.ru\x27",],
      ?_, "ПОДМЕНА: показано \x27paypal.com\x27, ведёт на \x27paypal-secure.ru\x27",
      ?_, by decide, by decide⟩
    · rw [hd]; exact List.mem_cons_self _ _
    · exact List.mem_cons_self _ _

/-- Witness for the general part of C8 at the paypal example. -/
theorem c8_link_spoofing_fail_witness :
    (check_link_spoofing noRefData c8ppLinks).status = CheckStatus.fail :=
  c8_link_spoofing_fail.1 noRefData c8ppLinks
    ("https://paypal-secure.ru/login", "https://paypal.com/login")
    (by decide) (by decide) rfl

/-- C8 counterexample to "exactly when": a lone protocol-less href
(`<a href="paypal-secure.ru">Click here</a>`) produces status FAIL
although no anchor's display text is a URL at all. -/
def c8cexLinks : HtmlLinks :=
  { anchors := [("paypal-secure.ru", "Click here")],
    hrefs := ["paypal-secure.ru"],
    hrefDomains := [] }

theorem c8_exactly_when_counterexample :
    (check_link_spoofing noRefData c8cexLinks).status = CheckStatus.fail ∧
      c8cexLinks.anchors.any anchorSpoofed = false := by
  constructor
  · decide
  · decide

/-! ## C9 — `AnalysisLogger.load_all` -/

/-- One persisted result file: its modification time, its path and the
parsed document (`AnalysisResult.from_dict` of its JSON). -/
structure LogFile where
  mtime : Int
  path : String
  doc : AnalysisResult
deriving DecidableEq

/-- Python string `<` (code-point lexicographic). -/
def charListLt : List Char → List Char → Bool
  | [], [] => false
  | [], _ :: _ => true
  | _ :: _, [] => false
  | a :: as, b :: bs => a < b || (a == b && charListLt as bs)

/-- The `(mtime, filepath)` tuple order used by `files.sort(reverse=True)`
(line 284 of `analysis_result.py`). -/
def fileLt (a b : LogFile) : Bool :=
  decide (a.mtime < b.mtime) ||
    (decide (a.mtime = b.mtime) && charListLt a.path.data b.path.data)

/-- Insert into a descending-sorted list, before the first entry that
is not strictly greater (so equal keys keep their original order, as
Python's stable sort does). -/
def insertFileDesc (f : LogFile) : List LogFile → List LogFile
  | [] => [f]
  | g :: rest => if fileLt f g then g :: insertFileDesc f rest else f :: g :: rest

/-- `files.sort(reverse=True)`: stable descending sort on
`(mtime, filepath)`. -/
def sortFilesDesc : List LogFile → List LogFile
  | [] => []
  | f :: rest => insertFileDesc f (sortFilesDesc rest)

/-- The read loop of `load_all` (lines 286–299): stop at `limit`
results; skip a file whose non-empty `message_id` was already seen;
otherwise record the id and append the document. -/
def dedupLoop (limit : Nat) :
    List LogFile → List String → List AnalysisResult → List AnalysisResult
  | [], _, acc => acc.reverse
  | f :: rest, seen, acc =>
    if limit ≤ acc.length then acc.reverse
    else if f.doc.message_id ≠ "" ∧ f.doc.message_id ∈ seen then
      dedupLoop limit rest seen acc
    else
      dedupLoop limit rest (f.doc.message_id :: seen) (f.doc :: acc)

/-- `AnalysisLogger.load_all` (lines 260–303) on the collected file
set: sort newest-first by `(mtime, filepath)`, then walk with
dedup-by-`message_id` and the result limit. -/
def load_all (files : List LogFile) (limit : Nat) : List AnalysisResult :=
  dedupLoop limit (sortFilesDesc files) [] []

theorem dedupLoop_sublist (limit : Nat) (l : List LogFile) (seen : List String)
    (acc : List AnalysisResult) :
    ∃ t, dedupLoop limit l seen acc = acc.reverse ++ t ∧
      List.Sublist t (l.map (fun f => f.doc)) := by
  induction l generalizing seen acc with
  | nil => exact ⟨[], by simp [dedupLoop], List.nil_sublist _⟩
  | cons f rest ih =>
    simp only [dedupLoop, List.map_cons]
    split_ifs with h1 h2
    · exact ⟨[], by simp, List.nil_sublist _⟩
    · obtain ⟨t, ht, hs⟩ := ih seen acc
      exact ⟨t, ht, hs.cons _⟩
    · obtain ⟨t, ht, hs⟩ := ih (f.doc.message_id :: seen) (f.doc :: acc)
      refine ⟨f.doc :: t, ?_, hs.cons₂ _⟩
      rw [ht]
      simp

/-- C9: `load_all` emits documents in the newest-first file order
(its output is a sublist of the mtime-descending document list), and
on two files carrying the same non-empty `message_id` with different
modification times it returns exactly the more recent document,
whichever order the directory listing produced. -/
theorem c9_load_all_dedup (f1 f2 : LogFile) (limit : Nat)
    (hid : f1.doc.message_id = f2.doc.message_id)
    (hne : f1.doc.message_id ≠ "") (hm : f2.mtime < f1.mtime) (hl : 1 ≤ limit) :
    load_all [f1, f2] limit = [f1.doc] ∧ load_all [f2, f1] limit = [f1.doc] ∧
    (∀ (files : List LogFile) (lim : Nat),
      List.Sublist (load_all files lim) ((sortFilesDesc files).map (fun f => f.doc))) := by
  have hlt12 : fileLt f1 f2 = false := by
    have h1 : ¬ (f1.mtime < f2.mtime) := by omega
    have h2 : ¬ (f1.mtime = f2.mtime) := by omega
    simp [fileLt, h1, h2]
  have hlt21 : fileLt f2 f1 = true := by
    simp [fileLt, hm]
  have hsort1 : sortFilesDesc [f1, f2] = [f1, f2] := by
    simp [sortFilesDesc, insertFileDesc, hlt12]
  have hsort2 : sortFilesDesc [f2, f1] = [f1, f2] := by
    simp [sortFilesDesc, insertFileDesc, hlt21]
  have hne2 : f2.doc.message_id ≠ "" := hid ▸ hne
  have hrun : dedupLoop limit [f1, f2] [] [] = [f1.doc] := by
    simp only [dedupLoop]
    rw [if_neg (by simp; omega), if_neg (by simp)]
    by_cases hlim2 : limit ≤ 1
    · rw [if_pos (by simpa using hlim2)]
      rfl
    · rw [if_neg (by simpa using hlim2),
        if_pos ⟨hne2, by simp [hid]⟩]
      rfl
  refine ⟨?_, ?_, ?_⟩
  · rw [load_all, hsort1, hrun]
  · rw [load_all, hsort2, hrun]
  · intro files lim
    obtain ⟨t, ht, hs⟩ := dedupLoop_sublist lim (sortFilesDesc files) [] []
    rw [load_all, ht]
    simpa using hs

/-- The newer persisted file of the witness scenario. -/
def c9f1 : LogFile :=
  { mtime := 200, path := "logs/u_at_x.ru/20250102_m1.json",
    doc := { message_id := "m1", email_account := "u@x.ru", total_score := 7 } }

/-- The older duplicate (same `message_id`, smaller mtime). -/
def c9f2 : LogFile :=
  { mtime := 100, path := "logs/u_at_x.ru/20250101_m1.json",
    doc := { message_id := "m1", email_account := "u@x.ru", total_score := 3 } }

/-- Witness for C9 at the two concrete duplicate files. -/
theorem c9_load_all_dedup_witness :
    load_all [c9f1, c9f2] 1000 = [c9f1.doc] ∧
      load_all [c9f2, c9f1] 1000 = [c9f1.doc] := by
  have h := c9_load_all_dedup c9f1 c9f2 1000 rfl (by decide) (by decide) (by omega)
  exact ⟨h.1, h.2.1⟩
